import Mathlib

/-!
Verification of the cast operators of expression/core/typing.py: upcast,
downcast and try_downcast, embedded over a model of Python runtime
values, classes and type tokens. Classes are identified by name; the
ambient class hierarchy is a parameter sub : String → String → Bool
standing for issubclass on class names, so statements quantify over
every hierarchy.
-/

/-- A Python runtime value: its runtime class (by name) and its textual
rendering as produced by str(), which the downcast assertion message
interpolates. -/
structure PyVal where
  cls : String
  str : String

/-- Errors the cast operators can surface: a failed assert statement, or a
TypeError raised by isinstance when its second argument is not a class. -/
inductive PyErr where
  | assertionError (msg : String)
  | typeError (msg : String)

/-- A runtime type token as it can be passed for the target-type argument:
Python None, a plain class, a parameterized generic alias carrying its
origin and arguments, a typing special form such as Union, or an arbitrary
non-type object. -/
inductive TypeTok where
  | pynone
  | cls (name : String)
  | generic (origin : TypeTok) (args : List TypeTok)
  | special (name : String)
  | other (str : String)

/-- The textual rendering of a type token, as interpolated into the
downcast assertion message. Only the rendering of plain classes is ever
inspected by a theorem; the other cases are schematic. -/
def tokStr : TypeTok → String
  | TypeTok.pynone => "None"
  | TypeTok.cls n => "<class \x27" ++ n ++ "\x27>"
  | TypeTok.generic o _ => tokStr o ++ "[...]"
  | TypeTok.special n => "typing." ++ n
  | TypeTok.other s => s

/-- typing.get_origin: the unparameterized origin of a parameterized
generic alias, and Python None for every non-parameterized token. -/
def get_origin : TypeTok → TypeTok
  | TypeTok.generic o _ => o
  | _ => TypeTok.pynone

/-- The Python expression a or b for type tokens: None is falsy, and every
class, generic alias, special form or other object passed as a token is
truthy. -/
def pyOr : TypeTok → TypeTok → TypeTok
  | TypeTok.pynone, b => b
  | a, _ => a

/-- isinstance(v, t) for a class hierarchy sub: against a plain class it
decides whether the runtime class of the value is a subclass of it; any
other second argument raises TypeError. -/
def pyIsinstance (sub : String → String → Bool) (v : PyVal) : TypeTok → Except PyErr Bool
  | TypeTok.cls c => Except.ok (sub v.cls c)
  | TypeTok.generic _ _ =>
      Except.error (PyErr.typeError "isinstance() argument 2 cannot be a parameterized generic")
  | _ =>
      Except.error (PyErr.typeError "isinstance() arg 2 must be a type or tuple of types")

/-- upcast from typing.py: return expr, the target type is not inspected
and no check of any kind is performed. -/
def upcast (type : TypeTok) (expr : PyVal) : PyVal :=
  expr

/-- downcast from typing.py: assert isinstance(expr, type) with the
interpolated message, then return the value unchanged; a TypeError raised
by isinstance propagates. -/
def downcast (sub : String → String → Bool) (type : TypeTok) (expr : PyVal) :
    Except PyErr PyVal :=
  match pyIsinstance sub expr type with
  | Except.error e => Except.error e
  | Except.ok true => Except.ok expr
  | Except.ok false =>
      Except.error (PyErr.assertionError
        ("The type of expression " ++ expr.str ++ " is not a supertype of " ++ tokStr type))

/-- try_downcast from typing.py: origin is get_origin of the token or the
token itself; if origin is not None and isinstance(expr, origin) holds the
value is returned, otherwise None; a TypeError raised by isinstance
propagates. -/
def try_downcast (sub : String → String → Bool) (type_ : TypeTok) (expr : PyVal) :
    Except PyErr (Option PyVal) :=
  match pyOr (get_origin type_) type_ with
  | TypeTok.pynone => Except.ok none
  | origin =>
      match pyIsinstance sub expr origin with
      | Except.error e => Except.error e
      | Except.ok true => Except.ok (some expr)
      | Except.ok false => Except.ok none

/-- The class the runtime check of try_downcast resolves to, when there is
one: the token itself for a plain class, the origin for a generic alias of
a class, and nothing otherwise. -/
def classOrigin : TypeTok → Option String
  | TypeTok.cls c => some c
  | TypeTok.generic (TypeTok.cls c) _ => some c
  | _ => none

/-- A concrete class hierarchy for concrete runs: list and str are
subclasses of Sequence, Circle and Square are subclasses of Shape, every
class is a subclass of itself and of object. -/
def demoSub (a b : String) : Bool :=
  a == b || b == "object" ||
    (a == "list" && b == "Sequence") || (a == "str" && b == "Sequence") ||
    (a == "Circle" && b == "Shape") || (a == "Square" && b == "Shape")

/-- A list of strings, as a runtime value. -/
def seqOfStrings : PyVal := ⟨"list", "[\x27a\x27, \x27b\x27]"⟩

/-- The integer 5, as a runtime value. -/
def five : PyVal := ⟨"int", "5"⟩

/-- A Circle instance, as a runtime value. -/
def circle5 : PyVal := ⟨"Circle", "Circle(radius=5)"⟩

/-- A Square instance, as a runtime value. -/
def square3 : PyVal := ⟨"Square", "Square(side=3)"⟩

/-- Helper: on a plain class target, try_downcast reduces to the bare
subclass test on the runtime class of the value. -/
theorem try_downcast_cls_eq (sub : String → String → Bool) (c : String) (v : PyVal) :
    try_downcast sub (TypeTok.cls c) v =
      (if sub v.cls c then Except.ok (some v) else Except.ok none) := by
  cases h : sub v.cls c <;>
    simp [try_downcast, pyOr, get_origin, pyIsinstance, h]

/-- Helper: on a generic alias of a class, try_downcast performs the same
check as on the bare origin class, ignoring the arguments. -/
theorem try_downcast_generic_cls_eq (sub : String → String → Bool) (c : String)
    (args : List TypeTok) (v : PyVal) :
    try_downcast sub (TypeTok.generic (TypeTok.cls c) args) v =
      try_downcast sub (TypeTok.cls c) v := rfl

/-- Helper: on a plain class target, downcast reduces to the subclass test,
succeeding with the value or failing with the assertion message. -/
theorem downcast_cls_eq (sub : String → String → Bool) (c : String) (v : PyVal) :
    downcast sub (TypeTok.cls c) v =
      (if sub v.cls c then Except.ok v
       else Except.error (PyErr.assertionError
        ("The type of expression " ++ v.str ++ " is not a supertype of " ++
          tokStr (TypeTok.cls c)))) := by
  cases h : sub v.cls c <;>
    simp [downcast, pyIsinstance, h]

/-- C1: for every class hierarchy, value and class target, downcast succeeds and
returns the value itself exactly when the value is a runtime instance of the
target class, and otherwise fails with an assertion error whose message names
both the textual rendering of the value and that of the target type. -/
theorem downcast_ok_iff_instance (sub : String → String → Bool) (c : String) (v : PyVal) :
    (downcast sub (TypeTok.cls c) v = Except.ok v ↔ sub v.cls c = true) ∧
    (sub v.cls c = false →
      downcast sub (TypeTok.cls c) v = Except.error (PyErr.assertionError
        ("The type of expression " ++ v.str ++ " is not a supertype of " ++
          tokStr (TypeTok.cls c)))) := by
  rw [downcast_cls_eq]
  cases hx : sub v.cls c <;> simp [hx]

/-- C1 witness: a concrete run on the value 5 against the class str, showing the
failing branch with its message. -/
theorem downcast_ok_iff_instance_witness :
    demoSub five.cls "str" = false ∧
    downcast demoSub (TypeTok.cls "str") five = Except.error (PyErr.assertionError
      ("The type of expression " ++ five.str ++ " is not a supertype of " ++
        tokStr (TypeTok.cls "str"))) :=
  ⟨rfl, (downcast_ok_iff_instance demoSub "str" five).2 rfl⟩

/-- C2: for every hierarchy whose subclass relation is reflexive, every value,
and every target whose runtime check resolves to a class (a plain class or a
generic alias of one), try_downcast returns the value itself exactly when the
runtime class of the value is that class or a subclass of it, and returns None
otherwise. -/
theorem try_downcast_present_iff (sub : String → String → Bool) (t : TypeTok)
    (v : PyVal) (c : String) (hrefl : ∀ a, sub a a = true)
    (h : classOrigin t = some c) :
    (try_downcast sub t v = Except.ok (some v) ↔ (v.cls = c ∨ sub v.cls c = true)) ∧
    (¬ (v.cls = c ∨ sub v.cls c = true) → try_downcast sub t v = Except.ok none) := by
  have ht : try_downcast sub t v = try_downcast sub (TypeTok.cls c) v := by
    cases t with
    | pynone => simp [classOrigin] at h
    | cls n => simp only [classOrigin, Option.some.injEq] at h; rw [h]
    | generic o args =>
        cases o with
        | pynone => simp [classOrigin] at h
        | cls n =>
            simp only [classOrigin, Option.some.injEq] at h
            rw [h] at *
            exact try_downcast_generic_cls_eq sub c args v
        | generic o2 args2 => simp [classOrigin] at h
        | special n => simp [classOrigin] at h
        | other s => simp [classOrigin] at h
    | special n => simp [classOrigin] at h
    | other s => simp [classOrigin] at h
  rw [ht, try_downcast_cls_eq]
  cases hx : sub v.cls c
  · have hne : v.cls ≠ c := by
      intro he
      rw [he, hrefl c] at hx
      exact Bool.noConfusion hx
    simp [hx, hne]
  · simp [hx]

/-- C2 witness: a concrete run narrowing a list of strings to the Sequence
class in the demo hierarchy. -/
theorem try_downcast_present_iff_witness :
    try_downcast demoSub (TypeTok.cls "Sequence") seqOfStrings =
      Except.ok (some seqOfStrings) :=
  (try_downcast_present_iff demoSub (TypeTok.cls "Sequence") seqOfStrings "Sequence"
    (fun a => by simp [demoSub]) rfl).1.mpr (Or.inr rfl)

/-- C3 counterexample: with the non-type object 42 passed as target, try_downcast
does not return the value or None; the TypeError raised by isinstance
propagates out of it. -/
theorem try_downcast_raises_on_nonclass :
    try_downcast demoSub (TypeTok.other "42") five =
      Except.error (PyErr.typeError "isinstance() arg 2 must be a type or tuple of types") :=
  rfl

/-- C3 amended: try_downcast terminates normally with the value or None whenever
the target token is None, a plain class, or a generic alias of a class; for
every other target token the isinstance check raises a TypeError that
propagates. -/
theorem try_downcast_total_on_type_targets (sub : String → String → Bool)
    (t : TypeTok) (v : PyVal) :
    ((t = TypeTok.pynone ∨ ∃ c, classOrigin t = some c) →
      try_downcast sub t v = Except.ok (some v) ∨ try_downcast sub t v = Except.ok none) ∧
    ((t ≠ TypeTok.pynone ∧ classOrigin t = none) →
      ∃ m, try_downcast sub t v = Except.error (PyErr.typeError m)) := by
  constructor
  · rintro (rfl | ⟨c, hc⟩)
    · exact Or.inr rfl
    · have ht : try_downcast sub t v = try_downcast sub (TypeTok.cls c) v := by
        cases t with
        | pynone => simp [classOrigin] at hc
        | cls n => simp only [classOrigin, Option.some.injEq] at hc; rw [hc]
        | generic o args =>
            cases o with
            | pynone => simp [classOrigin] at hc
            | cls n =>
                simp only [classOrigin, Option.some.injEq] at hc
                rw [hc] at *
                exact try_downcast_generic_cls_eq sub c args v
            | generic o2 args2 => simp [classOrigin] at hc
            | special n => simp [classOrigin] at hc
            | other s => simp [classOrigin] at hc
        | special n => simp [classOrigin] at hc
        | other s => simp [classOrigin] at hc
      rw [ht, try_downcast_cls_eq]
      cases hx : sub v.cls c <;> simp [hx]
  · rintro ⟨hne, hc⟩
    cases t with
    | pynone => exact absurd rfl hne
    | cls n => simp [classOrigin] at hc
    | generic o args =>
        cases o with
        | pynone => exact ⟨_, rfl⟩
        | cls n => simp [classOrigin] at hc
        | generic o2 args2 => exact ⟨_, rfl⟩
        | special n => exact ⟨_, rfl⟩
        | other s => exact ⟨_, rfl⟩
    | special n => exact ⟨_, rfl⟩
    | other s => exact ⟨_, rfl⟩

/-- C3 witness: a concrete run on a class target, landing in the normal
terminating branch of the amended statement. -/
theorem try_downcast_total_on_type_targets_witness :
    try_downcast demoSub (TypeTok.cls "Sequence") five = Except.ok (some five) ∨
      try_downcast demoSub (TypeTok.cls "Sequence") five = Except.ok none :=
  (try_downcast_total_on_type_targets demoSub (TypeTok.cls "Sequence") five).1
    (Or.inr ⟨"Sequence", rfl⟩)

/-- C4: generic-parameter erasure in try_downcast: the runtime check against a
parameterized target is performed against the unparameterized origin, so the
generic arguments are ignored; concretely, a list of strings passes a
Sequence-of-int target, and the non-sequence value 5 fails a parameterized
Sequence target. -/
theorem try_downcast_erases_generic_args :
    (∀ (sub : String → String → Bool) (c : String) (args args2 : List TypeTok) (v : PyVal),
      try_downcast sub (TypeTok.generic (TypeTok.cls c) args) v =
        try_downcast sub (TypeTok.generic (TypeTok.cls c) args2) v) ∧
    try_downcast demoSub (TypeTok.generic (TypeTok.cls "Sequence") [TypeTok.cls "int"])
      seqOfStrings = Except.ok (some seqOfStrings) ∧
    try_downcast demoSub (TypeTok.generic (TypeTok.cls "Sequence") [TypeTok.other "_"])
      five = Except.ok none :=
  ⟨fun _ _ _ _ _ => rfl, rfl, rfl⟩

/-- C5: upcast is the identity on its value argument for every target type; it
performs no runtime check and never fails. -/
theorem upcast_identity (t : TypeTok) (v : PyVal) : upcast t v = v := rfl

/-- C6: the narrowing casts never fabricate a value: whenever downcast succeeds,
or try_downcast returns a present result, the result is the very value that was
passed in, and the isinstance check the operator performed on that value
returned true. -/
theorem casts_never_fabricate (sub : String → String → Bool) (t : TypeTok) (v r : PyVal) :
    (downcast sub t v = Except.ok r → r = v ∧ pyIsinstance sub v t = Except.ok true) ∧
    (try_downcast sub t v = Except.ok (some r) →
      r = v ∧ pyIsinstance sub v (pyOr (get_origin t) t) = Except.ok true) := by
  constructor
  · intro hd
    cases t with
    | cls n =>
        rw [downcast_cls_eq] at hd
        cases hx : sub v.cls n
        · simp [hx] at hd
        · simp [hx] at hd
          exact ⟨hd.symm, by simp [pyIsinstance, hx]⟩
    | pynone => exact Except.noConfusion hd
    | generic o args => exact Except.noConfusion hd
    | special n => exact Except.noConfusion hd
    | other s => exact Except.noConfusion hd
  · intro hd
    cases t with
    | pynone => exact Option.noConfusion (Except.ok.inj hd)
    | cls n =>
        rw [try_downcast_cls_eq] at hd
        cases hx : sub v.cls n
        · simp [hx] at hd
        · simp [hx] at hd
          exact ⟨hd.symm, by simp [pyOr, get_origin, pyIsinstance, hx]⟩
    | generic o args =>
        cases o with
        | cls n =>
            rw [try_downcast_generic_cls_eq, try_downcast_cls_eq] at hd
            cases hx : sub v.cls n
            · simp [hx] at hd
            · simp [hx] at hd
              exact ⟨hd.symm, by simp [pyOr, get_origin, pyIsinstance, hx]⟩
        | pynone => exact Except.noConfusion hd
        | generic o2 args2 => exact Except.noConfusion hd
        | special n => exact Except.noConfusion hd
        | other s => exact Except.noConfusion hd
    | special n => exact Except.noConfusion hd
    | other s => exact Except.noConfusion hd

/-- C6 witness: a concrete successful downcast of a Square instance to Shape,
yielding the very value and a passing isinstance check. -/
theorem casts_never_fabricate_witness :
    square3 = square3 ∧ pyIsinstance demoSub square3 (TypeTok.cls "Shape") = Except.ok true :=
  (casts_never_fabricate demoSub (TypeTok.cls "Shape") square3 square3).1 rfl

/-- C7: the cast operators are deterministic, stateless and side-effect-free:
each is a pure function of its arguments alone, so two invocations with equal
arguments produce equal outcomes. -/
theorem casts_deterministic (sub : String → String → Bool) (t t2 : TypeTok)
    (v v2 : PyVal) (ht : t = t2) (hv : v = v2) :
    upcast t v = upcast t2 v2 ∧ downcast sub t v = downcast sub t2 v2 ∧
      try_downcast sub t v = try_downcast sub t2 v2 := by
  subst ht; subst hv; exact ⟨rfl, rfl, rfl⟩

/-- C7 witness: a concrete pair of repeated invocations on equal arguments. -/
theorem casts_deterministic_witness :
    upcast (TypeTok.cls "object") five = upcast (TypeTok.cls "object") five ∧
    downcast demoSub (TypeTok.cls "object") five =
      downcast demoSub (TypeTok.cls "object") five ∧
    try_downcast demoSub (TypeTok.cls "object") five =
      try_downcast demoSub (TypeTok.cls "object") five :=
  casts_deterministic demoSub (TypeTok.cls "object") (TypeTok.cls "object") five five rfl rfl

/-- C8: on a plain, non-parameterized class target, try_downcast and downcast
agree: try_downcast returns the value exactly when downcast succeeds with the
same value, and try_downcast returns None exactly when downcast fails. -/
theorem try_downcast_agrees_with_downcast (sub : String → String → Bool)
    (c : String) (v : PyVal) :
    (try_downcast sub (TypeTok.cls c) v = Except.ok (some v) ↔
      downcast sub (TypeTok.cls c) v = Except.ok v) ∧
    (try_downcast sub (TypeTok.cls c) v = Except.ok none ↔
      ∃ e, downcast sub (TypeTok.cls c) v = Except.error e) := by
  rw [try_downcast_cls_eq, downcast_cls_eq]
  cases hx : sub v.cls c <;> simp [hx]

/-- C8 witness: a concrete agreement on the value 5 narrowed to int. -/
theorem try_downcast_agrees_with_downcast_witness :
    (try_downcast demoSub (TypeTok.cls "int") five = Except.ok (some five) ↔
      downcast demoSub (TypeTok.cls "int") five = Except.ok five) ∧
    (try_downcast demoSub (TypeTok.cls "int") five = Except.ok none ↔
      ∃ e, downcast demoSub (TypeTok.cls "int") five = Except.error e) :=
  try_downcast_agrees_with_downcast demoSub "int" five

/-- C9: downcast accepts any ancestor target, not only the exact runtime type:
when the runtime class of the value is a proper subclass of the target class,
downcast succeeds and returns the value. -/
theorem downcast_accepts_proper_subclass (sub : String → String → Bool)
    (c : String) (v : PyVal) (hne : v.cls ≠ c) (hsub : sub v.cls c = true) :
    downcast sub (TypeTok.cls c) v = Except.ok v := by
  rw [downcast_cls_eq]
  simp [hsub]

/-- C9 witness: a Circle instance, whose class is a proper subclass of Shape,
downcast to Shape. -/
theorem downcast_accepts_proper_subclass_witness :
    circle5.cls ≠ "Shape" ∧ demoSub circle5.cls "Shape" = true ∧
      downcast demoSub (TypeTok.cls "Shape") circle5 = Except.ok circle5 :=
  ⟨by decide, rfl,
    downcast_accepts_proper_subclass demoSub "Shape" circle5 (by decide) rfl⟩

/-- C10: upcast-then-downcast round trip: whenever the value is a runtime
instance of the target type, downcasting the result of any upcast returns the
value itself. -/
theorem upcast_downcast_roundtrip (sub : String → String → Bool) (b t : TypeTok)
    (v : PyVal) (h : pyIsinstance sub v t = Except.ok true) :
    downcast sub t (upcast b v) = Except.ok v := by
  show downcast sub t v = Except.ok v
  unfold downcast
  rw [h]

/-- C10 witness: the value 5 upcast to object and downcast back to int. -/
theorem upcast_downcast_roundtrip_witness :
    pyIsinstance demoSub five (TypeTok.cls "int") = Except.ok true ∧
      downcast demoSub (TypeTok.cls "int") (upcast (TypeTok.cls "object") five) =
        Except.ok five :=
  ⟨rfl, upcast_downcast_roundtrip demoSub (TypeTok.cls "object") (TypeTok.cls "int") five rfl⟩
